import Mathlib

/-
  Verification development for the safety-companion app in src/index.tsx.
  The React component state (useState hooks and refs) is embedded as an
  explicit record `AppState`; event handlers and effect bodies become pure
  state-transition functions.  Times are Nat milliseconds; geographic
  coordinates are stored, never computed with, so they are embedded as Int.
-/

namespace Guardian

/-- A position fix, as stored by `setLocation` (latitude/longitude pair). -/
structure Position where
  latitude : Int
  longitude : Int
deriving Repr, DecidableEq

/-- Error string set by `activateEmergencyMode`'s getCurrentPosition failure callback. -/
def locationFixErrorMsg : String :=
  "Could not get location. Please ensure location services are enabled."

/-- Error string set by `startRecording`'s catch branch. -/
def recordingErrorMsg : String :=
  "Could not start recording. Permissions may be denied."

/-- Status string set by the watchPosition error callback when sharing is active. -/
def trackingPausedMsg : String :=
  "Live tracking paused. Sharing last known location."

/-- Error string set by the watchPosition error callback when sharing is not active. -/
def trackingFailedMsg : String :=
  "Live location tracking failed. Sharing last known location."

/-- Error string set by `handleStartSharing` when no location has been acquired. -/
def sharingNoLocationMsg : String :=
  "Location not available. Please enable location services and try again."

/-- Status string for an indefinite sharing session. -/
def sharingIndefinitelyMsg : String := "Sharing indefinitely"

/-- The component state of `App`: the useState hooks and refs that the core
logic (emergency episode, sharing session, location watch) reads and writes.
`watchId` is `locationWatchIdRef`; `activeWatches` is the set of watches
currently live at the geolocation platform (to state the at-most-one-watch
invariant); `nextWatchId` generates fresh platform watch ids; `mapOn` is
whether `mapInstanceRef` currently holds a map. -/
structure AppState where
  isEmergency : Bool
  location : Option Position
  error : Option String
  isRecording : Bool
  sirenPlaying : Bool
  vibrating : Bool
  showSharingOptions : Bool
  isSharingLocation : Bool
  sharingEndTime : Option Nat
  remainingTime : String
  watchId : Option Nat
  activeWatches : List Nat
  nextWatchId : Nat
  mapOn : Bool
deriving Repr, DecidableEq

/-- The freshly mounted component: every flag false, nothing acquired. -/
def initState : AppState :=
  { isEmergency := false
    location := none
    error := none
    isRecording := false
    sirenPlaying := false
    vibrating := false
    showSharingOptions := false
    isSharingLocation := false
    sharingEndTime := none
    remainingTime := ""
    watchId := none
    activeWatches := []
    nextWatchId := 0
    mapOn := false }

/-- `handleStopSharing`: clears the sharing flag, the end time and the status text. -/
def handleStopSharing (s : AppState) : AppState :=
  { s with isSharingLocation := false, sharingEndTime := none, remainingTime := "" }

/-- `activateEmergencyMode(isDiscreet)`.  The async getCurrentPosition call is
embedded by passing the environment's response `fix` (some fix or failure) and
the recorder availability `recOk`; the callback then runs to completion.  If
already in emergency the call returns at once.  A loud activation starts the
siren and the vibration pattern before the fix is requested.  On a successful
fix the location is stored, `isEmergency` is set and recording starts (a
recording failure sets its own error and does not block activation); on a
failed fix only the location error is set. -/
def activateEmergencyMode (isDiscreet : Bool) (fix : Option Position) (recOk : Bool)
    (s : AppState) : AppState :=
  if s.isEmergency then s
  else
    let s1 := if isDiscreet then s else { s with sirenPlaying := true, vibrating := true }
    match fix with
    | some p =>
        let s2 := { s1 with location := some p, isEmergency := true }
        if recOk then { s2 with isRecording := true }
        else { s2 with error := some recordingErrorMsg }
    | none => { s1 with error := some locationFixErrorMsg }

/-- String.padStart(2, '0') as the countdown formatter uses it. -/
def padStart2 (s : String) : String :=
  if s.length ≥ 2 then s else if s.length = 1 then "0" ++ s else "00"

/-- A number rendered and zero-padded to two digits. -/
def pad2 (n : Nat) : String := padStart2 (toString n)

/-- The countdown string built by the sharing tick from `totalSeconds`
remaining: hours prefix only when nonzero, then zero-padded minutes and
seconds. -/
def formatTimeString (totalSeconds : Nat) : String :=
  let hours := totalSeconds / 3600
  let minutes := totalSeconds % 3600 / 60
  let seconds := totalSeconds % 60
  (if hours > 0 then toString hours ++ "h " else "")
    ++ pad2 minutes ++ ":" ++ pad2 seconds ++ " remaining"

/-- One firing of the 1-second sharing interval at wall-clock `now`: with a
finite end time, either auto-expire (remaining ≤ 0) via `handleStopSharing`
or recompute the countdown text; with no end time the interval does not exist
and the callback does nothing. -/
def sharingTick (now : Nat) (s : AppState) : AppState :=
  match s.sharingEndTime with
  | some endTime =>
      if endTime ≤ now then handleStopSharing s
      else { s with remainingTime := formatTimeString ((endTime - now) / 1000) }
  | none => s

/-- Whether the sharing countdown interval is installed: the effect sets it up
only when `isSharingLocation && sharingEndTime` (a finite, truthy end time). -/
def tickEnabled (s : AppState) : Bool :=
  s.isSharingLocation && s.sharingEndTime.isSome

/-- One second of wall-clock time passing: the tick fires only if its interval
is installed. -/
def sharingAdvance (now : Nat) (s : AppState) : AppState :=
  if tickEnabled s then sharingTick now s else s

/-- `handleStartSharing(durationInMinutes)` at wall-clock `now`.  Fails (error,
no state change) when no location was ever acquired.  Otherwise closes the
options modal and activates sharing; a truthy duration sets
`endTime = now + minutes·60·1000` (JS truthiness: `some 0` is falsy and lands
in the indefinite branch), a null duration clears the end time and sets the
indefinite status text.  A finite duration does not touch `remainingTime`. -/
def handleStartSharing (durationInMinutes : Option Nat) (now : Nat)
    (s : AppState) : AppState :=
  if s.location = none then { s with error := some sharingNoLocationMsg }
  else
    let s1 := { s with showSharingOptions := false, isSharingLocation := true }
    match durationInMinutes with
    | some m =>
        if m = 0 then
          { s1 with sharingEndTime := none, remainingTime := sharingIndefinitelyMsg }
        else
          { s1 with sharingEndTime := some (now + m * 60 * 1000) }
    | none =>
        { s1 with sharingEndTime := none, remainingTime := sharingIndefinitelyMsg }

/-- The watchPosition error callback: the watch is not stopped and the last
good position is kept; if sharing is active the degraded notice goes to the
sharing status line, otherwise it goes to the error banner. -/
def watchPositionError (s : AppState) : AppState :=
  if s.isSharingLocation then { s with remainingTime := trackingPausedMsg }
  else { s with error := some trackingFailedMsg }

/-!  The map / live-location useEffect (deps: isEmergency, isSharingLocation,
location).  On every dependency change React runs the previous cleanup — whose
closure captured the flag values of the render in which the effect last ran —
and then the effect body with the current values.  The refs (watch id, map
instance) are shared between the two. -/

/-- The effect's cleanup closure, captured when the flags were
`oldEmergency` / `oldSharing`: always clear the live watch (removing it from
the platform's active set); destroy the map only when that closure saw neither
episode active. -/
def locEffectCleanup (oldEmergency oldSharing : Bool) (s : AppState) : AppState :=
  let s1 :=
    match s.watchId with
    | some w => { s with activeWatches := s.activeWatches.erase w, watchId := none }
    | none => s
  if !oldEmergency && !oldSharing && s1.mapOn then { s1 with mapOn := false } else s1

/-- The effect body: when some episode is active and a location exists, build
the map if absent and establish the shared watch if absent (a fresh platform
watch id is allocated and becomes live). -/
def locEffectBody (s : AppState) : AppState :=
  if (s.isEmergency || s.isSharingLocation) && s.location.isSome then
    let s1 := if s.mapOn then s else { s with mapOn := true }
    match s1.watchId with
    | none =>
        { s1 with watchId := some s1.nextWatchId
                  activeWatches := s1.nextWatchId :: s1.activeWatches
                  nextWatchId := s1.nextWatchId + 1 }
    | some _ => s1
  else s

/-- One re-run of the effect after a dependency change: previous cleanup
(with its captured flags), then the body on the current state. -/
def runLocEffect (oldEmergency oldSharing : Bool) (s : AppState) : AppState :=
  locEffectBody (locEffectCleanup oldEmergency oldSharing s)

/-- The watch bookkeeping is consistent: the platform's live watches are
exactly the one held in `locationWatchIdRef` (so in particular at most one). -/
def watchConsistent (s : AppState) : Prop :=
  s.activeWatches = s.watchId.toList

/-!  The volume-key gesture recognizer (the keydown/keyup handler of the
gesture useEffect).  Events are delivered while no modal / active episode
suppresses the handler (the early-return guard is false).  The two setTimeout
timers are embedded as optional firing deadlines; `quadTapFired` and
`longPressFired` count the classifications delivered (calls of
`activateEmergencyMode(true)` resp. `activateEmergencyMode(false)`). -/

structure GestureState where
  volumeUpCount : Nat
  longPressDeadline : Option Nat
  tapWindowDeadline : Option Nat
  quadTapFired : Nat
  longPressFired : Nat
deriving Repr, DecidableEq

/-- Recognizer state before any key event. -/
def initGesture : GestureState :=
  { volumeUpCount := 0, longPressDeadline := none, tapWindowDeadline := none
    quadTapFired := 0, longPressFired := 0 }

/-- The 1000ms long-press timer firing: loud activation, count reset, tap
window cancelled. -/
def fireLongPress (s : GestureState) : GestureState :=
  { s with volumeUpCount := 0, longPressDeadline := none, tapWindowDeadline := none
           longPressFired := s.longPressFired + 1 }

/-- The 1500ms tap-window timer firing: count discarded, no classification. -/
def fireTapWindow (s : GestureState) : GestureState :=
  { s with volumeUpCount := 0, tapWindowDeadline := none }

/-- Fire the earliest pending timer if its deadline has been reached by `t`. -/
def fireOneDue (t : Nat) (s : GestureState) : GestureState :=
  match s.longPressDeadline, s.tapWindowDeadline with
  | some d1, some d2 =>
      if d2 < d1 then (if d2 ≤ t then fireTapWindow s else s)
      else (if d1 ≤ t then fireLongPress s else s)
  | some d1, none => if d1 ≤ t then fireLongPress s else s
  | none, some d2 => if d2 ≤ t then fireTapWindow s else s
  | none, none => s

/-- Fire every timer due at `t` (at most two timers exist). -/
def fireDue (t : Nat) (s : GestureState) : GestureState :=
  fireOneDue t (fireOneDue t s)

/-- A non-repeat AudioVolumeUp keydown at time `t`: arm the long-press timer,
cancel and (unless this is the 4th tap) restart the tap window, increment the
count; on the 4th tap cancel the long-press timer, classify the quad tap and
reset the count. -/
def keyDown (t : Nat) (s : GestureState) : GestureState :=
  let s1 := { s with longPressDeadline := some (t + 1000), tapWindowDeadline := none }
  let n := s1.volumeUpCount + 1
  if 4 ≤ n then
    { s1 with longPressDeadline := none, volumeUpCount := 0
              quadTapFired := s1.quadTapFired + 1 }
  else
    { s1 with volumeUpCount := n, tapWindowDeadline := some (t + 1500) }

/-- An AudioVolumeUp keyup: cancel the long-press timer, keep the tap window. -/
def keyUp (s : GestureState) : GestureState :=
  { s with longPressDeadline := none }

/-- One physical tap: timers due at the keydown time fire, the keydown is
handled, timers due at the keyup time fire, the keyup is handled. -/
def processTap (t u : Nat) (s : GestureState) : GestureState :=
  keyUp (fireDue u (keyDown t (fireDue t s)))

/-- Run a list of taps, each given as (keydown time, keyup time). -/
def runTaps : List (Nat × Nat) → GestureState → GestureState
  | [], s => s
  | (t, u) :: rest, s => runTaps rest (processTap t u s)

/-- Well-formed continuation of a tap sequence whose previous tap went down at
`ld` and up at `lu`: the next keydown comes after the previous keyup and
within the 1500ms tap window, and the key is released before the 1000ms
long-press deadline. -/
def wfTapsFrom : Nat → Nat → List (Nat × Nat) → Bool
  | _, _, [] => true
  | ld, lu, (t, u) :: rest =>
      decide (lu ≤ t) && decide (t < ld + 1500) && decide (t < u)
        && decide (u < t + 1000) && wfTapsFrom t u rest

/-- Well-formed tap sequence: strictly alternating down/up, every keydown
within 1500ms of the previous keydown, every hold shorter than 1000ms. -/
def wfTaps : List (Nat × Nat) → Bool
  | [] => true
  | (t, u) :: rest => decide (t < u) && decide (u < t + 1000) && wfTapsFrom t u rest

/-- Invariant of the recognizer after `n` well-formed taps, the last keydown
at `ld`: the count is `n` mod 4, the quad classification fired `n` div 4
times, the long press never fired, no long-press timer is pending, and the
tap window is pending exactly when the count is nonzero. -/
def GInv (n ld : Nat) (s : GestureState) : Prop :=
  s.volumeUpCount = n % 4 ∧ s.quadTapFired = n / 4 ∧ s.longPressFired = 0 ∧
    s.longPressDeadline = none ∧
    s.tapWindowDeadline = (if n % 4 = 0 then none else some (ld + 1500))

/-- The keydown time of the last tap of a list (`ld` for the empty list). -/
def lastDownTime : Nat → List (Nat × Nat) → Nat
  | ld, [] => ld
  | _, (t, _) :: rest => lastDownTime t rest

/-- One well-formed tap preserves the recognizer invariant, advancing the tap
count by one. -/
lemma processTap_inv (t u ld n : Nat) (s : GestureState)
    (hgap : t < ld + 1500) (htu : t < u) (hu : u < t + 1000)
    (hinv : GInv n ld s) : GInv (n + 1) t (processTap t u s) := by
  obtain ⟨hc, hq, hL, hlp, htap⟩ := hinv
  have hnu : ¬ (t + 1000 ≤ u) := by omega
  have hwt : ¬ (ld + 1500 ≤ t) := by omega
  have hdd : ¬ (t + 1500 < t + 1000) := by omega
  have h4 : n % 4 = 0 ∨ n % 4 = 1 ∨ n % 4 = 2 ∨ n % 4 = 3 := by omega
  rcases h4 with h | h | h | h
  · have e1 : (n + 1) % 4 = 1 := by omega
    have e2 : (n + 1) / 4 = n / 4 := by omega
    simp [processTap, keyDown, keyUp, fireDue, fireOneDue, fireLongPress, fireTapWindow,
      GInv, hc, hq, hL, hlp, htap, h, e1, e2, hnu, hwt, hdd]
  · have e1 : (n + 1) % 4 = 2 := by omega
    have e2 : (n + 1) / 4 = n / 4 := by omega
    simp [processTap, keyDown, keyUp, fireDue, fireOneDue, fireLongPress, fireTapWindow,
      GInv, hc, hq, hL, hlp, htap, h, e1, e2, hnu, hwt, hdd]
  · have e1 : (n + 1) % 4 = 3 := by omega
    have e2 : (n + 1) / 4 = n / 4 := by omega
    simp [processTap, keyDown, keyUp, fireDue, fireOneDue, fireLongPress, fireTapWindow,
      GInv, hc, hq, hL, hlp, htap, h, e1, e2, hnu, hwt, hdd]
  · have e1 : (n + 1) % 4 = 0 := by omega
    have e2 : (n + 1) / 4 = n / 4 + 1 := by omega
    simp [processTap, keyDown, keyUp, fireDue, fireOneDue, fireLongPress, fireTapWindow,
      GInv, hc, hq, hL, hlp, htap, h, e1, e2, hnu, hwt, hdd]

/-- Running a well-formed continuation of a tap sequence preserves the
invariant, advancing the count by its length. -/
lemma runTaps_inv (tps : List (Nat × Nat)) :
    ∀ (ld lu n : Nat) (s : GestureState), wfTapsFrom ld lu tps = true → GInv n ld s →
      GInv (n + tps.length) (lastDownTime ld tps) (runTaps tps s) := by
  induction tps with
  | nil =>
      intro ld lu n s _ h
      simpa [runTaps, lastDownTime] using h
  | cons p rest ih =>
      obtain ⟨t, u⟩ := p
      intro ld lu n s hwf hinv
      simp only [wfTapsFrom, Bool.and_eq_true, decide_eq_true_eq] at hwf
      obtain ⟨⟨⟨⟨h1, h2⟩, h3⟩, h4⟩, h5⟩ := hwf
      have step := processTap_inv t u ld n s h2 h3 h4 hinv
      have rec := ih t u (n + 1) (processTap t u s) h5 step
      have hlen : n + ((t, u) :: rest).length = (n + 1) + rest.length := by
        simp only [List.length_cons]
        omega
      rw [hlen]
      simpa [runTaps, lastDownTime] using rec

/-- The recognizer invariant for a whole well-formed tap sequence, from the
initial state. -/
lemma runTaps_wf (tps : List (Nat × Nat)) (h : wfTaps tps = true) :
    GInv tps.length (lastDownTime 0 tps) (runTaps tps initGesture) := by
  cases tps with
  | nil =>
      simp [runTaps, lastDownTime, GInv, initGesture]
  | cons p rest =>
      obtain ⟨t, u⟩ := p
      simp only [wfTaps, Bool.and_eq_true, decide_eq_true_eq] at h
      obtain ⟨⟨h1, h2⟩, h3⟩ := h
      have base : GInv 0 t initGesture := by
        simp [GInv, initGesture]
      have step := processTap_inv t u t 0 initGesture (by omega) h1 h2 base
      have rec := runTaps_inv rest t u 1 (processTap t u initGesture) h3 step
      have hlen : ((t, u) :: rest).length = 1 + rest.length := by
        simp only [List.length_cons]
        omega
      rw [hlen]
      simpa [runTaps, lastDownTime] using rec

/-- Eight fast taps, 200ms apart, each held 50ms: every keydown is within
1500ms of the previous one and every hold is below 1000ms. -/
def eightFastTaps : List (Nat × Nat) :=
  [(0, 50), (200, 250), (400, 450), (600, 650),
   (800, 850), (1000, 1050), (1200, 1250), (1400, 1450)]

/-- C3 counterexample: a sequence of 8 key-down events, each within 1500ms of
the previous one and with no 1000ms hold, in which the quad-tap
classification fires twice, not exactly once: after the 4th tap the count
resets to 0 and taps 5–8 accumulate to a second quad tap (the handler is
still receiving events because the discreet activation's position fix is
asynchronous and has not yet set the emergency flag). -/
theorem quadTap_eight_taps_fires_twice :
    wfTaps eightFastTaps = true ∧
      (runTaps eightFastTaps initGesture).quadTapFired = 2 ∧
      ¬ (runTaps eightFastTaps initGesture).quadTapFired = 1 := by
  decide

/-- C3 (amended): for every well-formed sequence of n taps (each keydown
within 1500ms of the previous, every hold below 1000ms, so no long press ever
fires), the quad-tap classification fires exactly once per 4 accumulated taps
— n / 4 times in total, resetting the count to 0 each time it fires, so the
final count is n mod 4; in particular it fires exactly once when 4 ≤ n ≤ 7. -/
theorem quadTap_fires_per_four_taps (tps : List (Nat × Nat)) (h : wfTaps tps = true) :
    (runTaps tps initGesture).quadTapFired = tps.length / 4 ∧
      (runTaps tps initGesture).volumeUpCount = tps.length % 4 ∧
      (runTaps tps initGesture).longPressFired = 0 := by
  obtain ⟨hc, hq, hL, _, _⟩ := runTaps_wf tps h
  exact ⟨hq, hc, hL⟩

/-- Witness for the amended C3 theorem: five fast taps fire the quad-tap
classification exactly once and leave the count at 1. -/
theorem quadTap_fires_per_four_taps_witness :
    (runTaps [(0, 50), (300, 350), (600, 650), (900, 950), (1200, 1250)]
        initGesture).quadTapFired = 1 ∧
      (runTaps [(0, 50), (300, 350), (600, 650), (900, 950), (1200, 1250)]
        initGesture).volumeUpCount = 1 := by
  have h := quadTap_fires_per_four_taps
    [(0, 50), (300, 350), (600, 650), (900, 950), (1200, 1250)] (by decide)
  exact ⟨h.1, h.2.1⟩

/-- C4: when the 4th tap's keydown arrives while the sequence is still
well-formed (so before any armed long-press timer has fired), the quad tap
preempts the long press: the classification fires once, the long-press (loud)
activation never fires during the sequence, and no long-press timer is left
pending at the end. -/
theorem quadTap_preempts_longPress (p1 p2 p3 p4 : Nat × Nat)
    (h : wfTaps [p1, p2, p3, p4] = true) :
    (runTaps [p1, p2, p3, p4] initGesture).quadTapFired = 1 ∧
      (runTaps [p1, p2, p3, p4] initGesture).longPressFired = 0 ∧
      (runTaps [p1, p2, p3, p4] initGesture).longPressDeadline = none := by
  obtain ⟨_, hq, hL, hlp, _⟩ := runTaps_wf [p1, p2, p3, p4] h
  exact ⟨by simpa using hq, hL, hlp⟩

/-- Witness for the C4 theorem at four concrete fast taps. -/
theorem quadTap_preempts_longPress_witness :
    (runTaps [(0, 100), (400, 500), (800, 900), (1200, 1300)]
        initGesture).quadTapFired = 1 ∧
      (runTaps [(0, 100), (400, 500), (800, 900), (1200, 1300)]
        initGesture).longPressFired = 0 ∧
      (runTaps [(0, 100), (400, 500), (800, 900), (1200, 1300)]
        initGesture).longPressDeadline = none :=
  quadTap_preempts_longPress (0, 100) (400, 500) (800, 900) (1200, 1300) (by decide)

/-- A state with a location fix acquired and everything else as freshly mounted. -/
def locatedState : AppState := { initState with location := some ⟨10, 20⟩ }

/-- A state in which the emergency episode and the sharing session are both
active, a location is known, the map exists, and platform watch 0 is the one
live subscription. -/
def bothActiveState : AppState :=
  { initState with
    isEmergency := true
    isSharingLocation := true
    location := some ⟨10, 20⟩
    watchId := some 0
    activeWatches := [0]
    nextWatchId := 1
    mapOn := true }

/-- C2 counterexample: a loud activation whose position fix fails leaves the
siren playing (it is started before the fix is requested and never stopped by
the failure callback), so the observable state after the failed activation is
not equal to the state before it — partial activation state is retained. -/
theorem activateFailure_retains_siren :
    (activateEmergencyMode false none true initState).isEmergency = false ∧
      (activateEmergencyMode false none true initState).sirenPlaying = true ∧
      initState.sirenPlaying = false ∧
      ¬ activateEmergencyMode false none true initState = initState := by
  decide

/-- C2 (amended): when the position fix fails, activation is aborted: the
episode does not enter Active, no recording starts, the stored location is
untouched, the failure error is surfaced, and a retry whose fix succeeds does
activate.  The state is otherwise unchanged except that a loud (non-discreet)
call leaves the siren and vibration — started before the fix was requested —
running. -/
theorem activateFailure_aborts_activation (d recOk : Bool) (s : AppState)
    (h : s.isEmergency = false) :
    (activateEmergencyMode d none recOk s).isEmergency = false ∧
      (activateEmergencyMode d none recOk s).isRecording = s.isRecording ∧
      (activateEmergencyMode d none recOk s).location = s.location ∧
      (activateEmergencyMode d none recOk s).error = some locationFixErrorMsg ∧
      (activateEmergencyMode d none recOk s).sirenPlaying = (s.sirenPlaying || !d) ∧
      (activateEmergencyMode d none recOk s).vibrating = (s.vibrating || !d) ∧
      (activateEmergencyMode d none recOk s).isSharingLocation = s.isSharingLocation ∧
      (activateEmergencyMode d none recOk s).sharingEndTime = s.sharingEndTime ∧
      (activateEmergencyMode d none recOk s).remainingTime = s.remainingTime ∧
      (activateEmergencyMode d none recOk s).watchId = s.watchId ∧
      (∀ (d2 : Bool) (p : Position) (r2 : Bool),
        (activateEmergencyMode d2 (some p) r2
          (activateEmergencyMode d none recOk s)).isEmergency = true) := by
  cases d <;> simp [activateEmergencyMode, h]

/-- Witness for the amended C2 theorem: a discreet activation at the fresh
state with a failing fix aborts and surfaces the error. -/
theorem activateFailure_aborts_activation_witness :
    (activateEmergencyMode true none true initState).isEmergency = false ∧
      (activateEmergencyMode true none true initState).error = some locationFixErrorMsg :=
  ⟨(activateFailure_aborts_activation true true initState rfl).1,
   (activateFailure_aborts_activation true true initState rfl).2.2.2.1⟩

/-- C5: `activateEmergencyMode` is a no-op when the episode is already Active,
and calling it twice in a row (same environment responses, the second call
issued after the first has run to completion) has the same observable effect
as calling it once. -/
theorem activate_idempotent :
    (∀ (d : Bool) (fix : Option Position) (recOk : Bool) (s : AppState),
        s.isEmergency = true → activateEmergencyMode d fix recOk s = s) ∧
      (∀ (d : Bool) (fix : Option Position) (recOk : Bool) (s : AppState),
        activateEmergencyMode d fix recOk (activateEmergencyMode d fix recOk s) =
          activateEmergencyMode d fix recOk s) := by
  constructor
  · intro d fix recOk s h
    simp [activateEmergencyMode, h]
  · intro d fix recOk s
    by_cases h : s.isEmergency
    · simp [activateEmergencyMode, h]
    · simp only [Bool.not_eq_true] at h
      cases fix with
      | some p => cases d <;> cases recOk <;> simp [activateEmergencyMode, h]
      | none => cases d <;> simp [activateEmergencyMode, h]

/-- Witness for the C5 theorem: at a state already in emergency, a further
activation call leaves the state exactly as it is. -/
theorem activate_idempotent_witness :
    activateEmergencyMode false none true { initState with isEmergency := true } =
      { initState with isEmergency := true } :=
  activate_idempotent.1 false none true { initState with isEmergency := true } rfl

/-- C6: a sharing session started with a nonzero finite duration gets
`endTime = now + minutes·60·1000`; at any tick whose wall-clock time has
reached the end time, the session transitions to Idle (sharing off, end time
cleared) and the status text is cleared, with no user action. -/
theorem sharing_autoExpiry_on_tick (s : AppState) (m t0 now : Nat)
    (hloc : s.location ≠ none) (hm : m ≠ 0)
    (hPast : t0 + m * 60 * 1000 ≤ now) :
    (handleStartSharing (some m) t0 s).sharingEndTime = some (t0 + m * 60 * 1000) ∧
      (handleStartSharing (some m) t0 s).isSharingLocation = true ∧
      (sharingTick now (handleStartSharing (some m) t0 s)).isSharingLocation = false ∧
      (sharingTick now (handleStartSharing (some m) t0 s)).sharingEndTime = none ∧
      (sharingTick now (handleStartSharing (some m) t0 s)).remainingTime = "" := by
  simp [handleStartSharing, sharingTick, handleStopSharing, hloc, hm, hPast]

/-- Witness for the C6 theorem: start(30) at time 0, tick 31 minutes later:
the session has ended and the status text is empty. -/
theorem sharing_autoExpiry_on_tick_witness :
    (sharingTick (31 * 60 * 1000)
        (handleStartSharing (some 30) 0 locatedState)).isSharingLocation = false ∧
      (sharingTick (31 * 60 * 1000)
        (handleStartSharing (some 30) 0 locatedState)).remainingTime = "" := by
  have h := sharing_autoExpiry_on_tick locatedState 30 0 (31 * 60 * 1000)
    (by decide) (by decide) (by norm_num)
  exact ⟨h.2.2.1, h.2.2.2.2⟩

/-- C7: the countdown formatter maps 3661 seconds to "1h 01:01 remaining" and
59 seconds to "00:59 remaining"; in general minutes and seconds are
zero-padded to two digits and the hours prefix is present exactly when the
hours component is nonzero. -/
theorem countdown_format_correct :
    formatTimeString 3661 = "1h 01:01 remaining" ∧
      formatTimeString 59 = "00:59 remaining" ∧
      (∀ ts : Nat, ts < 3600 →
        formatTimeString ts = pad2 (ts / 60) ++ ":" ++ pad2 (ts % 60) ++ " remaining") ∧
      (∀ ts : Nat, 3600 ≤ ts →
        formatTimeString ts =
          toString (ts / 3600) ++ "h " ++ pad2 (ts % 3600 / 60) ++ ":" ++ pad2 (ts % 60)
            ++ " remaining") := by
  refine ⟨by decide, by decide, ?_, ?_⟩
  · intro ts h
    have h0 : ts / 3600 = 0 := Nat.div_eq_of_lt h
    have h1 : ts % 3600 = ts := Nat.mod_eq_of_lt h
    simp [formatTimeString, h0, h1]
  · intro ts h
    have h0 : 0 < ts / 3600 := Nat.div_pos h (by norm_num)
    simp [formatTimeString, h0]

/-- Witness for the C7 theorem: 7261 remaining seconds formats with the hours
prefix and zero-padded minutes and seconds. -/
theorem countdown_format_correct_witness :
    formatTimeString 7261 =
      toString (7261 / 3600) ++ "h " ++ pad2 (7261 % 3600 / 60) ++ ":" ++ pad2 (7261 % 60)
        ++ " remaining" :=
  countdown_format_correct.2.2.2 7261 (by norm_num)

/-- C8: a sharing session started with a null duration has status text exactly
"Sharing indefinitely", the countdown interval is not installed, the passage
of time never changes the state (in particular it never transitions to Idle on
its own), and an explicit stop does end it. -/
theorem indefinite_sharing_no_auto_end (s : AppState) (now : Nat)
    (hloc : s.location ≠ none) :
    (handleStartSharing none now s).remainingTime = "Sharing indefinitely" ∧
      (handleStartSharing none now s).isSharingLocation = true ∧
      (handleStartSharing none now s).sharingEndTime = none ∧
      tickEnabled (handleStartSharing none now s) = false ∧
      (∀ m : Nat, sharingAdvance m (handleStartSharing none now s) =
        handleStartSharing none now s) ∧
      (handleStopSharing (handleStartSharing none now s)).isSharingLocation = false := by
  simp [handleStartSharing, tickEnabled, sharingAdvance, handleStopSharing,
    sharingIndefinitelyMsg, hloc]

/-- Witness for the C8 theorem: an indefinite session at the located fresh
state shows the constant status text and is unchanged by any later time. -/
theorem indefinite_sharing_no_auto_end_witness :
    (handleStartSharing none 0 locatedState).remainingTime = "Sharing indefinitely" ∧
      sharingAdvance 99999999 (handleStartSharing none 0 locatedState) =
        handleStartSharing none 0 locatedState :=
  ⟨(indefinite_sharing_no_auto_end locatedState 0 (by decide)).1,
   (indefinite_sharing_no_auto_end locatedState 0 (by decide)).2.2.2.2.1 99999999⟩

/-- C9 counterexample: with the emergency episode and the sharing session both
active, a watch error routes the degraded notice to the sharing status line
and leaves the error banner untouched — the sharing wording, not the
emergency wording, takes priority when both are active. -/
theorem watchError_bothActive_sharing_wording :
    bothActiveState.isEmergency = true ∧
      bothActiveState.isSharingLocation = true ∧
      (watchPositionError bothActiveState).remainingTime = trackingPausedMsg ∧
      (watchPositionError bothActiveState).error = none := by
  decide

/-- C9 (amended): on a continuous-watch error the tracker keeps the last good
position and the live watch; the degraded notice uses the sharing wording
whenever the sharing session is active — including when the emergency episode
is also active, so sharing wording (not emergency wording) takes priority —
and the emergency wording exactly when sharing is not active. -/
theorem watchError_degraded_notice (s : AppState) :
    (watchPositionError s).location = s.location ∧
      (watchPositionError s).watchId = s.watchId ∧
      (s.isSharingLocation = true →
        (watchPositionError s).remainingTime = trackingPausedMsg ∧
        (watchPositionError s).error = s.error) ∧
      (s.isSharingLocation = false →
        (watchPositionError s).error = some trackingFailedMsg ∧
        (watchPositionError s).remainingTime = s.remainingTime) := by
  by_cases h : s.isSharingLocation <;> simp [watchPositionError, h]

/-- Witness for the amended C9 theorem at the both-active state: the sharing
wording is used and the stored position is kept. -/
theorem watchError_degraded_notice_witness :
    (watchPositionError bothActiveState).remainingTime = trackingPausedMsg ∧
      (watchPositionError bothActiveState).location = bothActiveState.location :=
  ⟨((watchError_degraded_notice bothActiveState).2.2.1 rfl).1,
   (watchError_degraded_notice bothActiveState).1⟩

/-- C10: starting a sharing session with a finite duration does not set the
countdown status text synchronously: `remainingTime` keeps its prior value
(empty on a fresh session) until the first 1-second tick fires; the session is
active with the computed end time. -/
theorem startSharing_finite_status_not_synchronous (s : AppState) (now m : Nat)
    (hloc : s.location ≠ none) (hm : m ≠ 0) :
    (handleStartSharing (some m) now s).remainingTime = s.remainingTime ∧
      (handleStartSharing (some m) now s).isSharingLocation = true ∧
      (handleStartSharing (some m) now s).sharingEndTime = some (now + m * 60 * 1000) := by
  simp [handleStartSharing, hloc, hm]

/-- Witness for the C10 theorem: a fresh 30-minute session still has empty
status text right after start. -/
theorem startSharing_finite_status_not_synchronous_witness :
    (handleStartSharing (some 30) 0 locatedState).remainingTime = "" ∧
      (handleStartSharing (some 30) 0 locatedState).sharingEndTime =
        some (30 * 60 * 1000) := by
  have h := startSharing_finite_status_not_synchronous locatedState 0 30
    (by decide) (by decide)
  exact ⟨h.1, by simpa using h.2.2⟩

/-- C1: with both consumers active over a consistent watch state, re-running
the location effect keeps exactly one live platform watch; stopping exactly
one consumer (either one) leaves a live watch for the other — the position
stream is uninterrupted; stopping the second consumer as well (in either
order, each stop re-running the effect with the cleanup closure captured at
the previous run) cancels the underlying platform watch; and the effect
preserves watch consistency, which bounds the number of live platform watches
by one at all times. -/
theorem shared_tracking_subscription (s : AppState) (w : Nat)
    (hE : s.isEmergency = true) (hS : s.isSharingLocation = true)
    (hL : s.location.isSome = true) (hW : s.watchId = some w)
    (hA : s.activeWatches = [w]) (hM : s.mapOn = true) :
    (runLocEffect true true s).activeWatches.length = 1 ∧
      (runLocEffect true true { s with isEmergency := false }).activeWatches.length = 1 ∧
      (runLocEffect true true { s with isEmergency := false }).watchId.isSome = true ∧
      (runLocEffect true true { s with isSharingLocation := false }).activeWatches.length = 1 ∧
      (runLocEffect true true { s with isSharingLocation := false }).watchId.isSome = true ∧
      (runLocEffect false true
        { (runLocEffect true true { s with isEmergency := false }) with
            isSharingLocation := false }).activeWatches = [] ∧
      (runLocEffect true false
        { (runLocEffect true true { s with isSharingLocation := false }) with
            isEmergency := false }).activeWatches = [] ∧
      (∀ (oe os : Bool) (s2 : AppState),
        watchConsistent s2 → watchConsistent (runLocEffect oe os s2)) ∧
      (∀ s2 : AppState, watchConsistent s2 → s2.activeWatches.length ≤ 1) := by
  refine ⟨?_, ?_, ?_, ?_, ?_, ?_, ?_, ?_, ?_⟩
  · simp [runLocEffect, locEffectBody, locEffectCleanup, hE, hS, hL, hW, hA, hM]
  · simp [runLocEffect, locEffectBody, locEffectCleanup, hE, hS, hL, hW, hA, hM]
  · simp [runLocEffect, locEffectBody, locEffectCleanup, hE, hS, hL, hW, hA, hM]
  · simp [runLocEffect, locEffectBody, locEffectCleanup, hE, hS, hL, hW, hA, hM]
  · simp [runLocEffect, locEffectBody, locEffectCleanup, hE, hS, hL, hW, hA, hM]
  · simp [runLocEffect, locEffectBody, locEffectCleanup, hE, hS, hL, hW, hA, hM]
  · simp [runLocEffect, locEffectBody, locEffectCleanup, hE, hS, hL, hW, hA, hM]
  · intro oe os s2 hc
    obtain ⟨e, loc, err, rec, sir, vib, sso, shl, set2, rt, wid, aw, nw, mo⟩ := s2
    simp only [watchConsistent] at hc
    subst hc
    cases wid <;> cases oe <;> cases os <;> cases e <;> cases shl <;> cases loc <;> cases mo <;>
      simp [runLocEffect, locEffectBody, locEffectCleanup, watchConsistent]
  · intro s2 hc
    rw [watchConsistent] at hc
    rw [hc]
    cases s2.watchId <;> simp

/-- Witness for the C1 theorem at the both-active state: after stopping the
emergency episode the sharing session still has a live watch, and after then
stopping the sharing session no platform watch remains. -/
theorem shared_tracking_subscription_witness :
    (runLocEffect true true
        { bothActiveState with isEmergency := false }).activeWatches.length = 1 ∧
      (runLocEffect false true
        { (runLocEffect true true { bothActiveState with isEmergency := false }) with
            isSharingLocation := false }).activeWatches = [] :=
  ⟨(shared_tracking_subscription bothActiveState 0 rfl rfl rfl rfl rfl rfl).2.1,
   (shared_tracking_subscription bothActiveState 0 rfl rfl rfl rfl rfl rfl).2.2.2.2.2.1⟩

end Guardian
